import Mathlib

/-!
# Verification of the pix-engine GUI runtime against its specification

A shallow embedding of the interaction-relevant parts of the `pix-engine`
repository: the immediate-mode GUI widget logic (slider, drag, select list,
scrollbar), the per-frame input bookkeeping, the color arithmetic, and the
wireframe drawing routine.  Rust machine integers (`i32`, `usize`) are
modelled as `Int`/`Nat` with explicit saturation/checked-arithmetic where the
source relies on it; Rust floating point (`f64`/`Scalar`) is modelled as `ℚ`.
Fallible paths (panics) are modelled with `Except`.

The interaction-state store itself (`src/gui/state.rs`) is not part of the
source tree, only its callers are; definitions derived from the specification
instead of the source carry a doc comment starting `Modelled from the spec:`.
-/

namespace PixEngine

/-- Keyboard keys (subset of the source `Key` enum used by the GUI code;
all remaining variants are collapsed into `other`). -/
inductive Key where
  | up
  | down
  | left
  | right
  | ret
  | escape
  | other (code : Nat)
deriving DecidableEq, Repr

/-- Mouse buttons, from the source `Mouse` enum. -/
inductive Mouse where
  | left
  | middle
  | right
deriving DecidableEq, Repr

/-- Rust panic causes relevant to the embedded code. -/
inductive Panic where
  | usizeUnderflow
  | remainderByZero
deriving DecidableEq, Repr

/-! ## Widget label display (src/gui/widgets/slider.rs:96, 251)

Both `advanced_drag` and `advanced_slider` compute the user-visible label as
`label.split('#').next().unwrap_or("")`: the longest prefix of the label that
contains no `'#'` character. -/

/-- Translation of `label.split('#').next().unwrap_or("")`: the prefix of the
character list before the first occurrence of `'#'`. -/
def displayed_label : List Char → List Char
  | [] => []
  | c :: cs => if c = '#' then [] else c :: displayed_label cs

/-- The displayed label as the specification words it: the prefix of the label
preceding the first occurrence of the two-character marker `##`. -/
def spec_displayed_label : List Char → List Char
  | [] => []
  | ['#'] => ['#']
  | '#' :: '#' :: _ => []
  | c :: cs => c :: spec_displayed_label cs

/-! ## End-of-frame cleanup (src/src/core/state.rs)

`PixState::post_update` runs after `on_update` and calls `MouseState::clear`,
which clears only the `clicked` set. -/

/-- Structure `MouseState` from src/src/core/state.rs (`Instant` timestamps modelled as
`Nat`; the `HashSet`/`HashMap` fields modelled as lists). -/
structure MouseState where
  pos : Int × Int
  pressed : List Mouse
  clicked : List Mouse
  last_clicked : List (Mouse × Nat)
deriving DecidableEq, Repr

/-- Method `MouseState::clear`: clear transient mouse state (the `clicked` set). -/
def MouseState.clear (m : MouseState) : MouseState :=
  { m with clicked := [] }

/-- Structure `KeyState` from src/src/core/state.rs. -/
structure KeyState where
  pressed : List Key
deriving DecidableEq, Repr

/-- The subset of `PixState` (src/src/core/state.rs) touched by the frame
boundary code. -/
structure FrameState where
  mouse : MouseState
  pmouse : MouseState
  keys : KeyState
deriving DecidableEq, Repr

/-- Method `PixState::post_update`: state changes after `AppState::on_update`. -/
def FrameState.post_update (s : FrameState) : FrameState :=
  { s with mouse := s.mouse.clear }

/-! ## Select-list keyboard navigation (src/src/gui/list.rs:139-174)

When the list element is focused and a key is entered, `_select_list` moves
the selection (Up/Down) and then snaps the persisted scroll offset so the
selected row stays inside the content viewport.  The Down arm computes
`items.len() - 1` on `usize`, which panics on underflow when the item slice
is empty (Rust debug overflow-check semantics). -/

/-- Constant `usize::MAX`. -/
def USIZE_MAX : Nat := 2 ^ 64 - 1

/-- Checked `usize` subtraction: `a - b` panics on underflow. -/
def checked_sub (a b : Nat) : Except Panic Nat :=
  if a < b then .error .usizeUnderflow else .ok (a - b)

/-- The selection update of `_select_list` for an entered key:
`Up` does `selected.map(|s| s.saturating_sub(1)).or(Some(0))`,
`Down` does `selected.map(|s| { let mut s = s.saturating_add(1); if s >=
items.len() { s = items.len() - 1 } s }).or(Some(0))`; any other key leaves
the selection unchanged.  Returns the new selection and the
`changed_selection` flag. -/
def select_list_key_nav (numItems : Nat) (selected : Option Nat) (key : Key) :
    Except Panic (Option Nat × Bool) :=
  match key with
  | .up => .ok ((selected.map (fun s => s - 1)).orElse (fun _ => some 0), true)
  | .down =>
      match selected with
      | some s =>
          let s1 := min (s + 1) USIZE_MAX
          if s1 ≥ numItems then do
            let s2 ← checked_sub numItems 1
            pure (some s2, true)
          else
            .ok (some s1, true)
      | none => .ok (some 0, true)
  | _ => .ok (selected, false)

/-- Result of the select-list input processing: new selection and the
persisted scroll offset (y component). -/
structure NavResult where
  selected : Option Nat
  scrollY : Int
deriving DecidableEq, Repr

/-- The focused-key-input block of `_select_list` (list.rs lines 139-174):
update the selection, then if it changed compute `sel_y = selected.unwrap_or(0)
* line_height` and snap the scroll offset to the top of the window when the
selection moved above it, or to the bottom when it moved below it. -/
def select_list_input (numItems : Nat) (selected : Option Nat)
    (scrollY lineHeight contentHeight : Int) (key : Key) :
    Except Panic NavResult := do
  let (sel, changed) ← select_list_key_nav numItems selected key
  if changed then
    let selY : Int := (sel.getD 0 : Nat) * lineHeight
    if selY < scrollY then
      pure ⟨sel, selY⟩
    else if selY + lineHeight > scrollY + contentHeight then
      pure ⟨sel, selY - (contentHeight - lineHeight)⟩
    else
      pure ⟨sel, scrollY⟩
  else
    pure ⟨sel, scrollY⟩

/-! ## Wireframe drawing (src/src/state/draw.rs:605-653)

`draw_wireframe` rotates, scales and translates the model coordinates, then
draws `verts + 1` line segments indexing `transformed_coords[i % verts]` for
`i in 0..=verts` — a remainder by zero (panic) when the model is empty.
`angle.cos()`/`angle.sin()` are passed in as the precomputed values `cosA`,
`sinA`; the `as i32` casts truncate toward zero. -/

/-- A drawn line segment (the four `i32` arguments of `draw_line`). -/
structure Seg where
  x1 : Int
  y1 : Int
  x2 : Int
  y2 : Int
deriving DecidableEq, Repr

/-- Rust `as i32` on a float value: truncation toward zero. -/
def rat_as_i32 (q : ℚ) : Int := q.num.tdiv (q.den : Int)

/-- Function `draw_wireframe` from src/src/state/draw.rs: returns the list of drawn
segments, or the panic raised on an empty model. -/
def draw_wireframe (model_coords : List (ℚ × ℚ)) (x y : ℚ) (cosA sinA : ℚ)
    (scale : ℚ) : Except Panic (List Seg) :=
  let verts := model_coords.length
  let rotated := model_coords.map fun mc =>
    (mc.1 * cosA - mc.2 * sinA, mc.1 * sinA + mc.2 * cosA)
  let scaled := rotated.map fun c => (c.1 * scale, c.2 * scale)
  let translated := scaled.map fun c => (c.1 + x, c.2 + y)
  (List.range (verts + 1)).mapM fun i =>
    if verts = 0 then
      Except.error Panic.remainderByZero
    else
      let j := i + 1
      let p := translated.getD (i % verts) (0, 0)
      let q := translated.getD (j % verts) (0, 0)
      Except.ok ⟨rat_as_i32 p.1, rat_as_i32 p.2, rat_as_i32 q.1, rat_as_i32 q.2⟩

/-! ## Scrollbar (src/src/gui/scroll.rs:77-201)

`scrollbar` clamps the incoming value to `[0, max]`, renders, then derives a
new value from (in order) keyboard arrows when focused, the mouse wheel when
hovered, and the mouse position when active, writing it back when it differs.
The `hovered`/`focused`/`active` flags come from the interaction-state store
(`s.ui.try_hover`/`try_focus`/`is_active`), whose implementation
(src/gui/state.rs) is not in the source tree; they appear here as snapshot
inputs. -/

/-- Constant `i32::MIN`. -/
def I32_MIN : Int := -(2 ^ 31)

/-- Constant `i32::MAX`. -/
def I32_MAX : Int := 2 ^ 31 - 1

/-- Saturating subtraction `i32::saturating_sub`. -/
def i32_saturating_sub (a b : Int) : Int := min (max (a - b) I32_MIN) I32_MAX

/-- Saturating addition `i32::saturating_add`. -/
def i32_saturating_add (a b : Int) : Int := min (max (a + b) I32_MIN) I32_MAX

/-- Rust `u32 as i32`: two's-complement reinterpretation. -/
def u32_as_i32 (v : Nat) : Int :=
  if v < 2 ^ 31 then (v : Int) else (v : Int) - 2 ^ 32

/-- Rust `i32::clamp(lo, hi)` (equally `cmp::max(lo, cmp::min(hi, v))`). -/
def i32_clamp (v lo hi : Int) : Int := min (max v lo) hi

/-- Constant `SCROLL_SPEED` from src/src/gui/scroll.rs. -/
def SCROLL_SPEED : Int := 3

/-- Scroll direction, from src/src/gui.rs. -/
inductive Direction where
  | horizontal
  | vertical
deriving DecidableEq, Repr

/-- A rectangle with `i32` coordinates (`Rect<i32>`): position and size. -/
structure Rect where
  x : Int
  y : Int
  w : Int
  h : Int
deriving DecidableEq, Repr

/-- The per-call inputs of `scrollbar`: its arguments plus the input snapshot
and the interaction-state flags for its element id. -/
structure ScrollbarCtx where
  rect : Rect
  maxVal : Nat
  value : Int
  dir : Direction
  hovered : Bool
  focused : Bool
  active : Bool
  disabled : Bool
  key_entered : Option Key
  mouseX : Int
  mouseY : Int
  xrel : Int
  yrel : Int
deriving Repr

/-- Result of a `scrollbar` call: the value written back through the mutable
binding and the returned changed flag. -/
structure ScrollbarResult where
  value : Int
  changed : Bool
deriving DecidableEq, Repr

/-- The "Process keyboard input" block of `scrollbar`
(src/src/gui/scroll.rs:147-166): when focused, arrow keys move the value by
`SCROLL_SPEED`, saturating and clamped to `[0, max]`. -/
def scrollbar_keyboard (focused : Bool) (key_entered : Option Key)
    (dir : Direction) (value max : Int) : Int :=
  if focused then
    match key_entered with
    | some key =>
        match key, dir with
        | .up, .vertical => Max.max (i32_saturating_sub value SCROLL_SPEED) 0
        | .down, .vertical =>
            Min.min (i32_saturating_add value SCROLL_SPEED) max
        | .left, .horizontal =>
            Max.max (i32_saturating_sub value SCROLL_SPEED) 0
        | .right, .horizontal =>
            Min.min (i32_saturating_add value SCROLL_SPEED) max
        | _, _ => value
    | none => value
  else value

/-- The "Process mouse wheel" block of `scrollbar`
(src/src/gui/scroll.rs:168-179): when hovered, subtract `SCROLL_SPEED` times
the wheel delta on the scrollbar's axis (no clamping). -/
def scrollbar_wheel (hovered : Bool) (dir : Direction)
    (xrel yrel new_value : Int) : Int :=
  if hovered then
    match dir with
    | .vertical =>
        if yrel ≠ 0 then new_value - SCROLL_SPEED * yrel else new_value
    | .horizontal =>
        if xrel ≠ 0 then new_value - SCROLL_SPEED * xrel else new_value
  else new_value

/-- The "Process mouse input" block of `scrollbar`
(src/src/gui/scroll.rs:181-192): when active, map the mouse position across
the bar proportionally onto `[0, max]` (`i32` division truncates). -/
def scrollbar_drag (active : Bool) (dir : Direction) (rect : Rect)
    (mouseX mouseY max new_value : Int) : Int :=
  if active then
    match dir with
    | .vertical =>
        let my := i32_clamp (mouseY - rect.y) 0 rect.h
        (my * max).tdiv rect.h
    | .horizontal =>
        let mx := i32_clamp (mouseX - rect.x) 0 rect.w
        (mx * max).tdiv rect.w
  else new_value

/-- Function `scrollbar` from src/src/gui/scroll.rs (the value-flow of the call; the
rendering statements do not touch the value).  `*value` is first clamped to
`[0, max]`; `new_value` is then derived from keyboard input when focused,
decremented by the wheel delta when hovered, and recomputed from the mouse
position when active; it is written back iff it differs from the clamped
value. -/
def scrollbar (c : ScrollbarCtx) : ScrollbarResult :=
  let max := u32_as_i32 c.maxVal
  let value := Max.max 0 (Min.min max c.value)
  let new1 := scrollbar_keyboard c.focused c.key_entered c.dir value max
  let new2 := scrollbar_wheel c.hovered c.dir c.xrel c.yrel new1
  let new3 := scrollbar_drag c.active c.dir c.rect c.mouseX c.mouseY max new2
  if new3 ≠ value then ⟨new3, true⟩ else ⟨value, false⟩

/-! ## Slider (src/src/gui/widgets/slider.rs:235-387)

`advanced_slider` (with the bound type `T` and the renderer `Scalar`
instantiated at `ℚ`).  The interaction-state store it calls into
(`is_editing`, `parse_text_edit`, `try_hover`, `try_focus`, `is_active`,
`begin_edit`) lives in src/gui/state.rs, which is not in the source tree; its
outputs for this element id enter the embedding as snapshot inputs, with
`parse_text_edit` modelled from the spec. -/

/-- Function `num_traits::clamp(input, min, max)`:
`if input < min { min } else if input > max { max } else { input }`. -/
def rust_clamp (v lo hi : ℚ) : ℚ := if v < lo then lo else if v > hi then hi else v

/-- Modelled from the spec: `parse_text_edit(id, fallback) -> T` of the
interaction-state store (src/gui/state.rs, absent from the source tree) —
"`end_edit` attempts to parse the buffer into the bound type, discarding the
edit state regardless of parse success (parse failure falls back to the
previous committed value)".  `commit` is the parsed value of a text edit that
just ended for this element, if any; otherwise the fallback is returned. -/
def parse_text_edit (commit : Option ℚ) (fallback : ℚ) : ℚ :=
  commit.getD fallback

/-- The per-call inputs of `advanced_slider`: its arguments, the slider
rectangle geometry it computes, the input snapshot, and the
interaction-state flags for its element id. -/
structure SliderCtx where
  value : ℚ
  vmin : ℚ
  vmax : ℚ
  sliderX : Int
  sliderW : Int
  mouseX : Int
  editing : Bool
  disabled : Bool
  hovered : Bool
  focused : Bool
  active : Bool
  ctrl_down : Bool
  edit_commit : Option ℚ
  text_field_changed : Bool
deriving Repr

/-- Result of an `advanced_slider` call: the returned changed flag, the value
written through the mutable binding, and whether a text edit was begun. -/
structure SliderResult where
  changed : Bool
  value : ℚ
  began_edit : Bool
deriving Repr

/-- Function `advanced_slider` from src/src/gui/widgets/slider.rs (the value-flow of
the call; the rendering statements do not touch the value).  If editing and
not disabled, an editable text field is rendered instead and its changed flag
returned.  Otherwise the bound value is replaced by
`clamp(parse_text_edit(id, *value), min, max)`; then if active with the
numeric-entry modifier held a text edit is begun, else if active a new value
is proportionally mapped from the mouse position across the track width; it
is written back iff it differs. -/
def advanced_slider (c : SliderCtx) : SliderResult :=
  -- If editing, render editable text field instead
  if c.editing && !c.disabled then
    ⟨c.text_field_changed, c.value, false⟩
  else
    let value := rust_clamp (parse_text_edit c.edit_commit c.value) c.vmin c.vmax
    if c.active && c.ctrl_down then
      -- Process keyboard input: begin_edit
      if value ≠ value then ⟨true, value, true⟩ else ⟨false, value, true⟩
    else
      -- Process mouse input
      let new_value :=
        if c.active then
          let mx : ℚ := (i32_clamp (c.mouseX - c.sliderX) 0 c.sliderW : Int) /
            (c.sliderW : ℚ)
          mx * (c.vmax - c.vmin) + c.vmin
        else value
      if new_value ≠ value then ⟨true, new_value, false⟩ else ⟨false, value, false⟩

/-! ## Color (src/src/color.rs)

A `Color` stores its construction mode, four `[0,1]` float levels (held in
the shared RGB representation), and four derived `[0,255]` display channels.
`f64` is modelled as `ℚ`.  The conversion helpers `convert_levels`,
`calculate_channels` and `maxes` live in src/color/conversion.rs, which is
not in the source tree, and are modelled from the spec below. -/

/-- Color mode, from src/src/color.rs. -/
inductive ColorMode where
  | rgb
  | hsb
  | hsl
deriving DecidableEq, Repr

/-- The four `[0,1]` levels of a color. -/
structure Levels where
  v1 : ℚ
  v2 : ℚ
  v3 : ℚ
  a : ℚ
deriving DecidableEq, Repr

/-- Modelled from the spec: `maxes(mode)` (src/color/conversion.rs, absent
from the source tree) — the per-channel maxima documented in src/src/color.rs:
RGB channels range over `0..=255` with alpha `0..=255`; HSB/HSL over
`0.0..=360.0`, `0.0..=100.0`, `0.0..=100.0` with alpha `0.0..=1.0`. -/
def maxes : ColorMode → ℚ × ℚ × ℚ × ℚ
  | .rgb => (255, 255, 255, 255)
  | .hsb => (360, 100, 100, 1)
  | .hsl => (360, 100, 100, 1)

/-- Modelled from the spec: `convert_levels(levels, from, to)`
(src/color/conversion.rs, absent from the source tree).  The spec pins down
that "mode conversion is lossless round-trip only through the shared RGB
levels representation", and the source stores every color's levels in that
shared RGB representation (field doc: "RGB values ranging `0.0..=1.0`"); the
theorems below only exercise conversion between equal modes, which is
therefore the identity on the stored levels, taken here for every mode pair. -/
def convert_levels (l : Levels) (_from _to : ColorMode) : Levels := l

/-- Rust `f64 as u8` with prior rounding: saturating cast of the rounded
value into `0..=255`. -/
def level_to_channel (l : ℚ) : Nat :=
  (min 255 (max 0 (round (l * 255)))).toNat

/-- The four `[0,255]` display channels of a color. -/
structure Channels where
  r : Nat
  g : Nat
  b : Nat
  a : Nat
deriving DecidableEq, Repr

/-- Modelled from the spec: `calculate_channels(levels)`
(src/color/conversion.rs, absent from the source tree) — re-derives the
`[0,255]` display channels from the levels, rounding and saturating each. -/
def calculate_channels (l : Levels) : Channels :=
  ⟨level_to_channel l.v1, level_to_channel l.v2, level_to_channel l.v3,
    level_to_channel l.a⟩

/-- Structure `Color` from src/src/color.rs. -/
structure Color where
  mode : ColorMode
  levels : Levels
  channels : Channels
deriving DecidableEq, Repr

/-- Float clamp `f64::clamp(0.0, 1.0)`. -/
def clamp01 (v : ℚ) : ℚ := rust_clamp v 0 1

/-- Constructor `Color::with_mode_alpha` from src/src/color.rs: normalize the inputs by
the mode's maxima, clamp each level to `[0,1]`, convert to the shared RGB
representation and derive the channels. -/
def Color.with_mode_alpha (mode : ColorMode) (v1 v2 v3 alpha : ℚ) : Color :=
  let m := maxes mode
  let levels : Levels :=
    ⟨clamp01 (v1 / m.1), clamp01 (v2 / m.2.1), clamp01 (v3 / m.2.2.1),
      clamp01 (alpha / m.2.2.2)⟩
  let levels := convert_levels levels mode .rgb
  ⟨mode, levels, calculate_channels levels⟩

/-- Constructor `Color::with_mode` from src/src/color.rs: as `with_mode_alpha` with the
alpha level fixed at `1.0`. -/
def Color.with_mode (mode : ColorMode) (v1 v2 v3 : ℚ) : Color :=
  let m := maxes mode
  let levels : Levels :=
    ⟨clamp01 (v1 / m.1), clamp01 (v2 / m.2.1), clamp01 (v3 / m.2.2.1), 1⟩
  let levels := convert_levels levels mode .rgb
  ⟨mode, levels, calculate_channels levels⟩

/-- Constructor `Color::rgba` from src/src/color.rs. -/
def Color.rgba (r g b a : ℚ) : Color := Color.with_mode_alpha .rgb r g b a

/-- Operator `impl Add for Color` (src/src/color.rs:984-997): add the converted levels
componentwise and re-derive the channels (no clamping of the levels). -/
def Color.add (c other : Color) : Color :=
  let l := c.levels
  let o := convert_levels other.levels other.mode c.mode
  let levels : Levels := ⟨l.v1 + o.v1, l.v2 + o.v2, l.v3 + o.v3, l.a + o.a⟩
  ⟨c.mode, levels, calculate_channels levels⟩

/-- Clamp all four levels to `[0,1]` (the loop the `*Assign` operators run
before re-deriving channels). -/
def Levels.clamp_all (l : Levels) : Levels :=
  ⟨clamp01 l.v1, clamp01 l.v2, clamp01 l.v3, clamp01 l.a⟩

/-- Operator `impl AddAssign for Color` (src/src/color.rs:999-1009): add the converted
levels, clamp every level to `[0,1]`, re-derive the channels. -/
def Color.add_assign (c other : Color) : Color :=
  let l := c.levels
  let o := convert_levels other.levels other.mode c.mode
  let levels : Levels := ⟨l.v1 + o.v1, l.v2 + o.v2, l.v3 + o.v3, l.a + o.a⟩
  let levels := levels.clamp_all
  ⟨c.mode, levels, calculate_channels levels⟩

/-- Operator `impl Sub for Color` (src/src/color.rs:1011-1024): subtract the converted
levels componentwise and re-derive the channels (no clamping). -/
def Color.sub (c other : Color) : Color :=
  let l := c.levels
  let o := convert_levels other.levels other.mode c.mode
  let levels : Levels := ⟨l.v1 - o.v1, l.v2 - o.v2, l.v3 - o.v3, l.a - o.a⟩
  ⟨c.mode, levels, calculate_channels levels⟩

/-- Operator `impl SubAssign for Color` (src/src/color.rs:1026-1036): subtract, clamp
every level to `[0,1]`, re-derive the channels. -/
def Color.sub_assign (c other : Color) : Color :=
  let l := c.levels
  let o := convert_levels other.levels other.mode c.mode
  let levels : Levels := ⟨l.v1 - o.v1, l.v2 - o.v2, l.v3 - o.v3, l.a - o.a⟩
  let levels := levels.clamp_all
  ⟨c.mode, levels, calculate_channels levels⟩

/-- Operator `impl Mul<T> for Color` (src/src/color.rs `impl_ops!`): scale all four
levels and re-derive the channels (no clamping). -/
def Color.mul_scalar (c : Color) (s : ℚ) : Color :=
  let l := c.levels
  let levels : Levels := ⟨l.v1 * s, l.v2 * s, l.v3 * s, l.a * s⟩
  ⟨c.mode, levels, calculate_channels levels⟩

/-- Operator `impl MulAssign<T> for Color` (src/src/color.rs `impl_ops!`): scale,
clamp every level to `[0,1]`, re-derive the channels. -/
def Color.mul_assign (c : Color) (s : ℚ) : Color :=
  let l := c.levels
  let levels : Levels := ⟨l.v1 * s, l.v2 * s, l.v3 * s, l.a * s⟩
  let levels := levels.clamp_all
  ⟨c.mode, levels, calculate_channels levels⟩

/-- Operator `impl Div<T> for Color` (src/src/color.rs `impl_ops!`): divide all four
levels and re-derive the channels (no clamping). -/
def Color.div_scalar (c : Color) (s : ℚ) : Color :=
  let l := c.levels
  let levels : Levels := ⟨l.v1 / s, l.v2 / s, l.v3 / s, l.a / s⟩
  ⟨c.mode, levels, calculate_channels levels⟩

/-- Operator `impl DivAssign<T> for Color` (src/src/color.rs `impl_ops!`): divide,
clamp every level to `[0,1]`, re-derive the channels. -/
def Color.div_assign (c : Color) (s : ℚ) : Color :=
  let l := c.levels
  let levels : Levels := ⟨l.v1 / s, l.v2 / s, l.v3 / s, l.a / s⟩
  let levels := levels.clamp_all
  ⟨c.mode, levels, calculate_channels levels⟩

/-- All four levels of a color lie within `[0,1]`. -/
def Color.levels_in_range (c : Color) : Prop :=
  0 ≤ c.levels.v1 ∧ c.levels.v1 ≤ 1 ∧ 0 ≤ c.levels.v2 ∧ c.levels.v2 ≤ 1 ∧
    0 ≤ c.levels.v3 ∧ c.levels.v3 ≤ 1 ∧ 0 ≤ c.levels.a ∧ c.levels.a ≤ 1

instance (c : Color) : Decidable c.levels_in_range := by
  unfold Color.levels_in_range
  infer_instance

/-! ## Interaction state store (spec §4.2)

The store implementation (src/gui/state.rs) is not in the source tree — the
widget code under src/ only calls into it — so the store and its operations
are modelled from the spec: a table keyed by `ElementId` of per-element
records (`hovered`, `active`, `focused`, `scroll_offset`), where an unknown
id reads as the default record and is implicitly created, `try_focus` revokes
focus from whichever other id held it, and `try_capture` records the id as
the exclusive capture target. -/

/-- Modelled from the spec: the per-`ElementId` `InteractionState` record
(src/gui/state.rs, absent from the source tree). -/
structure ElementState where
  hovered : Bool
  active : Bool
  focused : Bool
  scrollX : Int
  scrollY : Int
deriving DecidableEq, Repr

/-- The default (implicitly created) element record: not hovered, not active,
not focused, zero scroll. -/
def ElementState.init : ElementState := ⟨false, false, false, 0, 0⟩

/-- Modelled from the spec: the interaction state store — a table keyed by
`ElementId` (the 64-bit hash, modelled as `Nat`). -/
structure UiStore where
  elems : List (Nat × ElementState)
deriving Repr

/-- The empty store at process start. -/
def UiStore.init : UiStore := ⟨[]⟩

/-- Ensure an entry exists for `id` (spec: "requesting state for an unknown
ElementId returns the type's default ... and implicitly creates an entry"). -/
def UiStore.ensure (st : UiStore) (id : Nat) : UiStore :=
  if st.elems.any (fun e => e.1 == id) then st
  else ⟨st.elems ++ [(id, ElementState.init)]⟩

/-- Rewrite every entry's record as a function of its key. -/
def UiStore.update_all (st : UiStore) (f : Nat → ElementState → ElementState) :
    UiStore :=
  ⟨st.elems.map fun e => (e.1, f e.1 e.2)⟩

/-- Modelled from the spec: `try_focus(id)` granting focus — "grants keyboard
focus to `id` ...; revokes focus from whichever other id previously held
it". -/
def UiStore.focus (st : UiStore) (id : Nat) : UiStore :=
  (st.ensure id).update_all fun k e => { e with focused := k == id }

/-- Modelled from the spec: `try_capture(id)` on mouse-button-down while
hovered — "marks `id` active and records it as the exclusive capture
target". -/
def UiStore.capture (st : UiStore) (id : Nat) : UiStore :=
  (st.ensure id).update_all fun k e => { e with active := k == id }

/-- Modelled from the spec: capture release on mouse-button-up — no element
remains active. -/
def UiStore.release_capture (st : UiStore) : UiStore :=
  st.update_all fun _ e => { e with active := false }

/-- Modelled from the spec: focus loss (e.g. a click that lands on no
focusable element) — no element remains focused. -/
def UiStore.blur (st : UiStore) : UiStore :=
  st.update_all fun _ e => { e with focused := false }

/-- Modelled from the spec: `try_hover(id, hit_rect)` — records whether the
pointer is inside the element's hit region (touches no other field). -/
def UiStore.hover (st : UiStore) (id : Nat) (inside : Bool) : UiStore :=
  (st.ensure id).update_all fun k e =>
    if k == id then { e with hovered := inside } else e

/-- Modelled from the spec: `set_scroll(id, value)` — write the persisted
scroll offset for `id`. -/
def UiStore.set_scroll (st : UiStore) (id : Nat) (x y : Int) : UiStore :=
  (st.ensure id).update_all fun k e =>
    if k == id then { e with scrollX := x, scrollY := y } else e

/-- One interaction-state store operation, as issued by the widget calls
(slider, drag, scrollbar, select_list) during any number of frames. -/
inductive UiOp where
  | try_focus (id : Nat)
  | try_capture (id : Nat)
  | release_capture
  | blur
  | try_hover (id : Nat) (inside : Bool)
  | set_scroll (id : Nat) (x y : Int)
deriving DecidableEq, Repr

/-- Apply one store operation. -/
def UiStore.apply : UiStore → UiOp → UiStore
  | st, .try_focus id => st.focus id
  | st, .try_capture id => st.capture id
  | st, .release_capture => st.release_capture
  | st, .blur => st.blur
  | st, .try_hover id inside => st.hover id inside
  | st, .set_scroll id x y => st.set_scroll id x y

/-- Run a sequence of store operations from the empty store. -/
def UiStore.run (ops : List UiOp) : UiStore :=
  ops.foldl UiStore.apply UiStore.init

/-- The number of entries whose record satisfies `p`. -/
def UiStore.countP (st : UiStore) (p : ElementState → Bool) : Nat :=
  st.elems.countP fun e => p e.2

/-- At most one entry of the store is active, and at most one is focused. -/
def UiStore.exclusive (st : UiStore) : Prop :=
  st.countP (fun e => e.active) ≤ 1 ∧ st.countP (fun e => e.focused) ≤ 1

/-! ## Theorems -/

/-- C6, counterexample: the label `"a#b"` contains no `##` marker, so per the
claim it should be displayed in full; the code displays only `"a"`, the text
before the first single `'#'`. -/
theorem C6_counterexample :
    displayed_label "a#b".data = "a".data ∧
    spec_displayed_label "a#b".data = "a#b".data ∧
    displayed_label "a#b".data ≠ spec_displayed_label "a#b".data := by
  decide

/-- C6 (amended): for every label passed to a widget (drag, slider), the text
displayed to the user is exactly the prefix of the label preceding the first
occurrence of the character `'#'` — so a label containing the `##` marker is
truncated before it, but a single `'#'` truncates as well; only a label
containing no `'#'` at all is displayed in full. -/
theorem C6_label_display (label : List Char) :
    displayed_label label = label.takeWhile (fun c => c != '#') ∧
    ('#' ∉ label → displayed_label label = label) := by
  constructor
  · induction label with
    | nil => rfl
    | cons c cs ih =>
        by_cases h : c = '#'
        · subst h
          simp [displayed_label, List.takeWhile_cons]
        · simp [displayed_label, List.takeWhile_cons, h, ih]
  · intro hmem
    induction label with
    | nil => rfl
    | cons c cs ih =>
        have hc : c ≠ '#' := fun h => hmem (h ▸ List.mem_cons_self c cs)
        have hcs : '#' ∉ cs := fun h => hmem (List.mem_cons_of_mem c h)
        simp [displayed_label, hc, ih hcs]

/-- C6, witness for the amended claim at a concrete label without `'#'`. -/
theorem C6_witness : displayed_label "Click".data = "Click".data :=
  (C6_label_display "Click".data).2 (by decide)

/-- C8: the end-of-frame cleanup (`PixState::post_update`) clears only the
frame-transient mouse `clicked` set and leaves the held mouse buttons, the
mouse position, the click timestamps, the previous-frame mouse state and all
held-key state unchanged. -/
theorem C8_post_update_clears_only_clicked (s : FrameState) :
    s.post_update.mouse.clicked = [] ∧
    s.post_update.mouse.pressed = s.mouse.pressed ∧
    s.post_update.mouse.pos = s.mouse.pos ∧
    s.post_update.mouse.last_clicked = s.mouse.last_clicked ∧
    s.post_update.pmouse = s.pmouse ∧
    s.post_update.keys = s.keys := by
  simp [FrameState.post_update, MouseState.clear]

/-- Computation rule: `Except` bind on an error short-circuits. -/
theorem except_error_bind {ε α β : Type} (e : ε) (f : α → Except ε β) :
    (Except.error e : Except ε α) >>= f = Except.error e := rfl

/-- Computation rule: `Except` bind on a success applies the continuation. -/
theorem except_ok_bind {ε α β : Type} (a : α) (f : α → Except ε β) :
    (Except.ok a : Except ε α) >>= f = f a := rfl

/-- C9: calling `_select_list` with an empty item slice while focused with a
`Down` key entered panics (usize underflow in `items.len() - 1`) when the
selection is `Some(_)`, and sets the selection to `Some(0)` without panicking
when it is `None`. -/
theorem C9_empty_list_down_key (s : Nat) (scrollY lh ch : Int) :
    select_list_input 0 (some s) scrollY lh ch Key.down =
      .error .usizeUnderflow ∧
    ∃ r, select_list_input 0 none scrollY lh ch Key.down = .ok r ∧
      r.selected = some 0 := by
  constructor
  · have h : select_list_key_nav 0 (some s) Key.down = .error .usizeUnderflow := by
      simp [select_list_key_nav, checked_sub, except_error_bind]
    simp [select_list_input, h, except_error_bind]
  · have h : select_list_input 0 none scrollY lh ch Key.down =
        (if ((0 : Nat) : Int) * lh < scrollY then
          .ok ⟨some 0, ((0 : Nat) : Int) * lh⟩
        else if ((0 : Nat) : Int) * lh + lh > scrollY + ch then
          .ok ⟨some 0, ((0 : Nat) : Int) * lh - (ch - lh)⟩
        else .ok ⟨some 0, scrollY⟩) := rfl
    rw [h]
    split_ifs <;> exact ⟨_, rfl, rfl⟩

/-- Running `mapM` over the `Except` monad with an everywhere-successful function
succeeds with the mapped list. -/
theorem except_mapM_ok {α β ε : Type} (f : α → β) (l : List α) :
    l.mapM (fun a => (Except.ok (f a) : Except ε β)) = Except.ok (l.map f) := by
  induction l with
  | nil => rfl
  | cons a t ih => rw [List.mapM_cons, ih]; rfl

/-- C10: `draw_wireframe` panics (remainder by zero in
`transformed_coords[i % verts]`) on an empty model, and on a non-empty model
of `verts` vertices terminates and draws `verts + 1` line segments. -/
theorem C10_draw_wireframe (model_coords : List (ℚ × ℚ))
    (x y cosA sinA scale : ℚ) :
    (model_coords = [] →
      draw_wireframe model_coords x y cosA sinA scale =
        .error .remainderByZero) ∧
    (model_coords ≠ [] →
      ∃ segs, draw_wireframe model_coords x y cosA sinA scale = .ok segs ∧
        segs.length = model_coords.length + 1) := by
  constructor
  · rintro rfl
    rfl
  · intro hne
    obtain ⟨p, rest, rfl⟩ : ∃ p rest, model_coords = p :: rest := by
      cases model_coords with
      | nil => exact absurd rfl hne
      | cons p rest => exact ⟨p, rest, rfl⟩
    unfold draw_wireframe
    simp only [List.length_cons, Nat.succ_ne_zero, if_false]
    rw [except_mapM_ok]
    exact ⟨_, rfl, by simp⟩

/-- C3: in a select list with at least one item whose row height fits the
content viewport, every Up/Down key entered while focused yields a selection
`Some i` whose row rectangle `[i*line_height, i*line_height + line_height)`
lies within `[scroll_offset, scroll_offset + viewport height)` after the
update of the persisted scroll offset; moreover, when the selection moved
above the old offset the new offset is set exactly to the selected row's top
(snap-to-top), and when it moved past the bottom of the viewport the new
offset places the row's bottom exactly at the viewport's bottom
(snap-to-bottom). -/
theorem C3_select_list_scroll_containment (n : Nat) (sel : Option Nat)
    (scrollY lh ch : Int) (key : Key)
    (hn : 0 < n) (hlh : lh ≤ ch) (hkey : key = Key.up ∨ key = Key.down) :
    ∃ r, select_list_input n sel scrollY lh ch key = .ok r ∧
      ∃ i, r.selected = some i ∧
        r.scrollY ≤ (i : Int) * lh ∧
        (i : Int) * lh + lh ≤ r.scrollY + ch ∧
        ((i : Int) * lh < scrollY → r.scrollY = (i : Int) * lh) ∧
        (¬ (i : Int) * lh < scrollY → (i : Int) * lh + lh > scrollY + ch →
          r.scrollY = (i : Int) * lh - (ch - lh)) := by
  have hnav : ∃ i, select_list_key_nav n sel key = .ok (some i, true) := by
    rcases hkey with rfl | rfl
    · cases sel with
      | none => exact ⟨0, rfl⟩
      | some s => exact ⟨s - 1, rfl⟩
    · cases sel with
      | none => exact ⟨0, rfl⟩
      | some s =>
          by_cases hs : min (s + 1) USIZE_MAX ≥ n
          · refine ⟨n - 1, ?_⟩
            have hsub : checked_sub n 1 = .ok (n - 1) := by
              simp [checked_sub, Nat.not_lt.mpr hn]
            simp [select_list_key_nav, hs, hsub, except_ok_bind]
          · exact ⟨min (s + 1) USIZE_MAX, by simp [select_list_key_nav, hs]⟩
  obtain ⟨i, hnav⟩ := hnav
  have hrun : select_list_input n sel scrollY lh ch key =
      (if (i : Int) * lh < scrollY then .ok ⟨some i, (i : Int) * lh⟩
      else if (i : Int) * lh + lh > scrollY + ch then
        .ok ⟨some i, (i : Int) * lh - (ch - lh)⟩
      else .ok ⟨some i, scrollY⟩) := by
    simp [select_list_input, hnav, except_ok_bind]
    rfl
  rw [hrun]
  split_ifs with h1 h2
  · exact ⟨_, rfl, i, rfl, le_refl _,
      by show (i : Int) * lh + lh ≤ (i : Int) * lh + ch; omega,
      fun _ => rfl,
      fun hn1 _ => absurd h1 hn1⟩
  · exact ⟨_, rfl, i, rfl,
      by show (i : Int) * lh - (ch - lh) ≤ (i : Int) * lh; omega,
      by show (i : Int) * lh + lh ≤ (i : Int) * lh - (ch - lh) + ch; omega,
      fun hlt => absurd hlt h1,
      fun _ _ => rfl⟩
  · exact ⟨_, rfl, i, rfl,
      by show scrollY ≤ (i : Int) * lh; omega,
      by show (i : Int) * lh + lh ≤ scrollY + ch; omega,
      fun hlt => absurd hlt h1,
      fun _ hgt => absurd hgt h2⟩

/-- C3, witness: ten items of height 20 in a 100-high viewport, selection at
row 4, scroll at 0, Down entered — the selection moves past the bottom, so
the containment and the snap-to-bottom equality are exercised. -/
theorem C3_witness :
    ∃ r, select_list_input 10 (some 4) 0 20 100 Key.down = .ok r ∧
      ∃ i, r.selected = some i ∧
        r.scrollY ≤ (i : Int) * 20 ∧
        (i : Int) * 20 + 20 ≤ r.scrollY + 100 ∧
        ((i : Int) * 20 < 0 → r.scrollY = (i : Int) * 20) ∧
        (¬ (i : Int) * 20 < 0 → (i : Int) * 20 + 20 > 0 + 100 →
          r.scrollY = (i : Int) * 20 - (100 - 20)) :=
  C3_select_list_scroll_containment 10 (some 4) 0 20 100 Key.down
    (by decide) (by decide) (Or.inr rfl)

/-- Both bounds of the `[0,1]` clamp. -/
theorem clamp01_mem (v : ℚ) : 0 ≤ clamp01 v ∧ clamp01 v ≤ 1 := by
  unfold clamp01 rust_clamp
  split_ifs <;> constructor <;> linarith

/-- Clamping `Levels.clamp_all` puts all four levels inside `[0,1]`. -/
theorem Levels.clamp_all_in01 (l : Levels) :
    0 ≤ l.clamp_all.v1 ∧ l.clamp_all.v1 ≤ 1 ∧
    0 ≤ l.clamp_all.v2 ∧ l.clamp_all.v2 ≤ 1 ∧
    0 ≤ l.clamp_all.v3 ∧ l.clamp_all.v3 ≤ 1 ∧
    0 ≤ l.clamp_all.a ∧ l.clamp_all.a ≤ 1 := by
  unfold Levels.clamp_all
  exact ⟨(clamp01_mem _).1, (clamp01_mem _).2, (clamp01_mem _).1,
    (clamp01_mem _).2, (clamp01_mem _).1, (clamp01_mem _).2,
    (clamp01_mem _).1, (clamp01_mem _).2⟩

/-- C7, counterexample: adding the source's own test colors
`color!(200, 50, 10, 100)` and `color!(100, 50, 10, 100)` with the plain `Add`
operator leaves the red level at `300/255 > 1` — the non-assign arithmetic
operators do not clamp the levels back into `[0,1]`. -/
theorem C7_counterexample :
    ((Color.rgba 200 50 10 100).add (Color.rgba 100 50 10 100)).levels.v1 =
      20 / 17 ∧
    ¬ ((Color.rgba 200 50 10 100).add
        (Color.rgba 100 50 10 100)).levels_in_range := by
  have h : ((Color.rgba 200 50 10 100).add
      (Color.rgba 100 50 10 100)).levels.v1 = 20 / 17 := by
    norm_num [Color.rgba, Color.with_mode_alpha, Color.add, convert_levels,
      maxes, clamp01, rust_clamp]
  refine ⟨h, fun hr => ?_⟩
  have h2 := hr.2.1
  rw [h] at h2
  norm_num at h2

/-- C7 (amended): every `Color` built by a constructor has all four levels in
`[0,1]`, and the assign-form arithmetic (`AddAssign`, `SubAssign`, scalar
`MulAssign`, `DivAssign`) clamps all four levels back into `[0,1]`; the
non-assign `Add`, `Sub`, scalar `Mul` and `Div` leave the raw, possibly
out-of-range levels.  Every constructor and every arithmetic operation
re-derives the `[0,255]` channels from the resulting levels. -/
theorem C7_levels_clamping (mode : ColorMode) (v1 v2 v3 alpha s : ℚ)
    (c other : Color) :
    (Color.with_mode_alpha mode v1 v2 v3 alpha).levels_in_range ∧
    (Color.with_mode mode v1 v2 v3).levels_in_range ∧
    (c.add_assign other).levels_in_range ∧
    (c.sub_assign other).levels_in_range ∧
    (c.mul_assign s).levels_in_range ∧
    (c.div_assign s).levels_in_range ∧
    (Color.with_mode_alpha mode v1 v2 v3 alpha).channels =
      calculate_channels (Color.with_mode_alpha mode v1 v2 v3 alpha).levels ∧
    (c.add other).channels = calculate_channels (c.add other).levels ∧
    (c.sub other).channels = calculate_channels (c.sub other).levels ∧
    (c.mul_scalar s).channels = calculate_channels (c.mul_scalar s).levels ∧
    (c.div_scalar s).channels = calculate_channels (c.div_scalar s).levels ∧
    (c.add_assign other).channels =
      calculate_channels (c.add_assign other).levels ∧
    (c.sub_assign other).channels =
      calculate_channels (c.sub_assign other).levels ∧
    (c.mul_assign s).channels = calculate_channels (c.mul_assign s).levels ∧
    (c.div_assign s).channels = calculate_channels (c.div_assign s).levels := by
  refine ⟨?_, ?_, ?_, ?_, ?_, ?_, rfl, rfl, rfl, rfl, rfl, rfl, rfl, rfl, rfl⟩
  · simp only [Color.with_mode_alpha, convert_levels, Color.levels_in_range]
    exact ⟨(clamp01_mem _).1, (clamp01_mem _).2, (clamp01_mem _).1,
      (clamp01_mem _).2, (clamp01_mem _).1, (clamp01_mem _).2,
      (clamp01_mem _).1, (clamp01_mem _).2⟩
  · simp only [Color.with_mode, convert_levels, Color.levels_in_range]
    exact ⟨(clamp01_mem _).1, (clamp01_mem _).2, (clamp01_mem _).1,
      (clamp01_mem _).2, (clamp01_mem _).1, (clamp01_mem _).2,
      zero_le_one, le_refl 1⟩
  · simp only [Color.add_assign, Color.levels_in_range]
    exact Levels.clamp_all_in01 _
  · simp only [Color.sub_assign, Color.levels_in_range]
    exact Levels.clamp_all_in01 _
  · simp only [Color.mul_assign, Color.levels_in_range]
    exact Levels.clamp_all_in01 _
  · simp only [Color.div_assign, Color.levels_in_range]
    exact Levels.clamp_all_in01 _

/-- C2: when an `advanced_slider` with `min < max` is active (mouse-captured)
without the numeric-entry modifier and not in edit mode, the new bound value
is the mouse x offset into the track, clamped to `[0, width]`, divided by the
track width and proportionally mapped onto `[min, max]`; the call reports a
change exactly when that value differs from the (clamped) incoming one. -/
theorem C2_slider_mouse_tracking (c : SliderCtx)
    (hedit : c.editing = false) (hactive : c.active = true)
    (hctrl : c.ctrl_down = false) (hbounds : c.vmin < c.vmax)
    (hw : 0 < c.sliderW) :
    (advanced_slider c).value =
      ((i32_clamp (c.mouseX - c.sliderX) 0 c.sliderW : ℤ) : ℚ) /
          (c.sliderW : ℚ) * (c.vmax - c.vmin) + c.vmin ∧
    ((advanced_slider c).changed = true ↔
      ((i32_clamp (c.mouseX - c.sliderX) 0 c.sliderW : ℤ) : ℚ) /
          (c.sliderW : ℚ) * (c.vmax - c.vmin) + c.vmin ≠
        rust_clamp (parse_text_edit c.edit_commit c.value) c.vmin c.vmax) := by
  have h1 : (c.editing && !c.disabled) = false := by
    rw [hedit]; exact Bool.false_and _
  have h2 : (c.active && c.ctrl_down) = false := by
    rw [hactive, hctrl]; rfl
  unfold advanced_slider
  rw [h1, h2, hactive]
  simp only [Bool.false_eq_true, if_false, if_true]
  split_ifs with hne
  · exact ⟨rfl, ⟨fun _ => hne, fun _ => rfl⟩⟩
  · have heq := not_not.mp hne
    exact ⟨heq.symm, ⟨fun h => h.elim, fun h => absurd heq h⟩⟩

/-- C2, witness: the spec scenario — value `0.5`, `min = 0`, `max = 1`, track
100 pixels wide starting at `x = 0`, mouse at `x = 75` (75% across), active,
no modifier: the value becomes `0.75` and the call reports a change. -/
theorem C2_witness :
    (advanced_slider
      ⟨1/2, 0, 1, 0, 100, 75, false, false, true, false, true, false,
        none, false⟩).value = 3 / 4 ∧
    (advanced_slider
      ⟨1/2, 0, 1, 0, 100, 75, false, false, true, false, true, false,
        none, false⟩).changed = true := by
  have h := C2_slider_mouse_tracking
    ⟨1/2, 0, 1, 0, 100, 75, false, false, true, false, true, false,
      none, false⟩ rfl rfl rfl (by norm_num) (by norm_num)
  constructor
  · rw [h.1]
    norm_num [i32_clamp]
  · rw [h.2]
    norm_num [i32_clamp, rust_clamp, parse_text_edit]

/-- C5: an `advanced_slider` bound to `v ∈ [min, max]` that is neither active
nor in text-edit mode, with no text-edit commit this frame, reports no change
and leaves the bound value at `v`. -/
theorem C5_slider_no_input_roundtrip (c : SliderCtx) (v : ℚ)
    (hedit : c.editing = false) (hactive : c.active = false)
    (hcommit : c.edit_commit = none) (hval : c.value = v)
    (hlo : c.vmin ≤ v) (hhi : v ≤ c.vmax) :
    (advanced_slider c).changed = false ∧ (advanced_slider c).value = v := by
  have h1 : (c.editing && !c.disabled) = false := by
    rw [hedit]; exact Bool.false_and _
  have h2 : (c.active && c.ctrl_down) = false := by
    rw [hactive]; exact Bool.false_and _
  have hclamp :
      rust_clamp (parse_text_edit c.edit_commit c.value) c.vmin c.vmax = v := by
    rw [hcommit, hval]
    unfold parse_text_edit rust_clamp
    simp only [Option.getD_none]
    split_ifs <;> linarith
  unfold advanced_slider
  rw [h1, h2, hactive]
  simp only [Bool.false_eq_true, if_false, hclamp, ne_eq, not_true_eq_false,
    not_false_eq_true]
  constructor <;> trivial

/-- C5, witness: value `0.5` on a `[0, 1]` slider with no input at all —
no change, value still `0.5`. -/
theorem C5_witness :
    (advanced_slider
      ⟨1/2, 0, 1, 0, 100, 75, false, false, false, false, false, false,
        none, false⟩).changed = false ∧
    (advanced_slider
      ⟨1/2, 0, 1, 0, 100, 75, false, false, false, false, false, false,
        none, false⟩).value = 1 / 2 :=
  C5_slider_no_input_roundtrip _ (1/2) rfl rfl rfl rfl (by norm_num)
    (by norm_num)

/-- The proportional thumb-drag computation `(a * M).tdiv h` stays inside
`[0, M]` when `a ∈ [0, h]`. -/
theorem tdiv_prop_bound (a M h : Int) (ha0 : 0 ≤ a) (hah : a ≤ h)
    (hM : 0 ≤ M) (hh : 0 < h) :
    0 ≤ (a * M).tdiv h ∧ (a * M).tdiv h ≤ M := by
  have h1 : 0 ≤ a * M := mul_nonneg ha0 hM
  have heq : (a * M).tdiv h = (a * M) / h := by
    rw [Int.tdiv_eq_ediv] <;> omega
  constructor
  · rw [heq]
    exact Int.ediv_nonneg h1 (le_of_lt hh)
  · rw [heq]
    calc (a * M) / h ≤ (h * M) / h := Int.ediv_le_ediv hh (by nlinarith)
    _ = M := Int.mul_ediv_cancel_left M (ne_of_gt hh)

/-- C4, counterexample: a scrollbar with `max = 10` and value `0`, hovered
with a mouse-wheel delta of `1` and no other input, writes back `-3` — the
mouse-wheel path is not clamped to `[0, max]` on return. -/
theorem C4_counterexample :
    (scrollbar ⟨⟨0, 0, 12, 100⟩, 10, 0, .vertical, true, false, false, false,
      none, 0, 0, 0, 1⟩).value = -3 ∧
    ¬ (0 ≤ (scrollbar ⟨⟨0, 0, 12, 100⟩, 10, 0, .vertical, true, false, false,
        false, none, 0, 0, 0, 1⟩).value ∧
      (scrollbar ⟨⟨0, 0, 12, 100⟩, 10, 0, .vertical, true, false, false,
        false, none, 0, 0, 0, 1⟩).value ≤ u32_as_i32 10) := by
  decide

/-- C4 (amended): the value a `scrollbar` call writes back lies in `[0, max]`
for the entry clamp, the keyboard-arrow path and the active mouse-drag path —
i.e. whenever the mouse-wheel path does not fire (not hovered, or zero wheel
deltas).  The hovered mouse-wheel path is unclamped and can leave `[0, max]`
until the next call's entry clamp. -/
theorem C4_scrollbar_clamped (c : ScrollbarCtx)
    (hwheel : c.hovered = false ∨ (c.xrel = 0 ∧ c.yrel = 0))
    (hmax : c.maxVal < 2 ^ 31) (hw : 0 < c.rect.w) (hh : 0 < c.rect.h) :
    0 ≤ (scrollbar c).value ∧ (scrollbar c).value ≤ u32_as_i32 c.maxVal := by
  have hM0 : u32_as_i32 c.maxVal = (c.maxVal : Int) := by
    unfold u32_as_i32
    rw [if_pos hmax]
  have hMnn : 0 ≤ u32_as_i32 c.maxVal := by
    rw [hM0]
    exact Int.natCast_nonneg _
  set M := u32_as_i32 c.maxVal with hMdef
  set v : Int := Max.max 0 (Min.min M c.value) with hvdef
  have hv : 0 ≤ v ∧ v ≤ M := by constructor <;> omega
  have hn1 : 0 ≤ scrollbar_keyboard c.focused c.key_entered c.dir v M ∧
      scrollbar_keyboard c.focused c.key_entered c.dir v M ≤ M := by
    unfold scrollbar_keyboard
    split
    · rcases c.key_entered with _ | key
      · exact hv
      · rcases key <;> rcases c.dir <;>
          dsimp only [i32_saturating_sub, i32_saturating_add, SCROLL_SPEED,
            I32_MIN, I32_MAX] <;>
          constructor <;> omega
    · exact hv
  set n1 := scrollbar_keyboard c.focused c.key_entered c.dir v M with hn1def
  have hn2 : 0 ≤ scrollbar_wheel c.hovered c.dir c.xrel c.yrel n1 ∧
      scrollbar_wheel c.hovered c.dir c.xrel c.yrel n1 ≤ M := by
    unfold scrollbar_wheel
    rcases hwheel with hfalse | hxy
    · rw [hfalse]
      simpa using hn1
    · rw [hxy.1, hxy.2]
      rcases c.dir <;> simpa using hn1
  set n2 := scrollbar_wheel c.hovered c.dir c.xrel c.yrel n1 with hn2def
  have hn3 : 0 ≤ scrollbar_drag c.active c.dir c.rect c.mouseX c.mouseY M n2 ∧
      scrollbar_drag c.active c.dir c.rect c.mouseX c.mouseY M n2 ≤ M := by
    unfold scrollbar_drag
    split
    · rcases c.dir
      · dsimp only []
        refine tdiv_prop_bound _ _ _ ?_ ?_ hMnn hw <;>
          dsimp only [i32_clamp] <;> omega
      · dsimp only []
        refine tdiv_prop_bound _ _ _ ?_ ?_ hMnn hh <;>
          dsimp only [i32_clamp] <;> omega
    · exact hn2
  set n3 := scrollbar_drag c.active c.dir c.rect c.mouseX c.mouseY M n2
    with hn3def
  have hrun : scrollbar c =
      (if n3 ≠ v then ⟨n3, true⟩ else ⟨v, false⟩ : ScrollbarResult) := rfl
  rw [hrun]
  split_ifs
  · exact hn3
  · exact hv

/-- A pair list whose keys are distinct has at most one entry with any given
key. -/
theorem countP_key_le_one (l : List (Nat × ElementState)) (id : Nat)
    (h : (l.map Prod.fst).Nodup) : l.countP (fun e => e.1 == id) ≤ 1 := by
  have h1 : l.countP (fun e => e.1 == id) = (l.map Prod.fst).count id := by
    rw [List.count, List.countP_map]
    rfl
  rw [h1]
  exact List.nodup_iff_count_le_one.mp h id

/-- Operation `UiStore.ensure` preserves distinctness of the keys. -/
theorem ensure_keys_nodup (st : UiStore) (id : Nat)
    (h : (st.elems.map Prod.fst).Nodup) :
    ((st.ensure id).elems.map Prod.fst).Nodup := by
  unfold UiStore.ensure
  split
  · exact h
  · rename_i hnot
    rw [List.map_append, List.nodup_append]
    refine ⟨h, List.nodup_singleton _, ?_⟩
    intro k hk hk1
    simp only [List.map_cons, List.map_nil, List.mem_singleton] at hk1
    subst hk1
    rw [List.mem_map] at hk
    obtain ⟨e, he, hke⟩ := hk
    exact hnot (List.any_eq_true.mpr ⟨e, he, by simp [hke]⟩)

/-- Operation `UiStore.update_all` leaves the key list unchanged. -/
theorem update_all_keys (st : UiStore) (f : Nat → ElementState → ElementState) :
    (st.update_all f).elems.map Prod.fst = st.elems.map Prod.fst := by
  unfold UiStore.update_all
  rw [List.map_map]
  rfl

/-- Counting after `UiStore.update_all` counts the rewritten records. -/
theorem countP_update_all (st : UiStore) (f : Nat → ElementState → ElementState)
    (p : ElementState → Bool) :
    (st.update_all f).countP p = st.elems.countP fun e => p (f e.1 e.2) := by
  unfold UiStore.update_all UiStore.countP
  rw [List.countP_map]
  rfl

/-- Counting after `UiStore.ensure` is unchanged for any predicate false on
the default record. -/
theorem countP_ensure (st : UiStore) (id : Nat) (p : ElementState → Bool)
    (hp : p ElementState.init = false) :
    (st.ensure id).countP p = st.countP p := by
  unfold UiStore.ensure UiStore.countP
  split
  · rfl
  · rw [List.countP_append]
    simp [hp]

/-- Every store operation keeps the keys distinct and `active`/`focused`
exclusive. -/
theorem apply_preserves_exclusive (st : UiStore) (op : UiOp)
    (h : (st.elems.map Prod.fst).Nodup ∧ st.exclusive) :
    ((st.apply op).elems.map Prod.fst).Nodup ∧ (st.apply op).exclusive := by
  have hkeys := h.1
  have hact := h.2.1
  have hfoc := h.2.2
  have hkeys2 : ∀ id, ((st.ensure id).elems.map Prod.fst).Nodup :=
    fun id => ensure_keys_nodup st id hkeys
  cases op with
  | try_focus id =>
      refine ⟨?_, ?_, ?_⟩
      · show (((st.ensure id).update_all fun k e =>
            { e with focused := k == id }).elems.map Prod.fst).Nodup
        rw [update_all_keys]
        exact hkeys2 id
      · show ((st.ensure id).update_all fun k e =>
            { e with focused := k == id }).countP (fun e => e.active) ≤ 1
        rw [countP_update_all]
        show (st.ensure id).countP (fun e => e.active) ≤ 1
        rw [countP_ensure st id _ rfl]
        exact hact
      · show ((st.ensure id).update_all fun k e =>
            { e with focused := k == id }).countP (fun e => e.focused) ≤ 1
        rw [countP_update_all]
        show (st.ensure id).elems.countP (fun e => e.1 == id) ≤ 1
        exact countP_key_le_one _ id (hkeys2 id)
  | try_capture id =>
      refine ⟨?_, ?_, ?_⟩
      · show (((st.ensure id).update_all fun k e =>
            { e with active := k == id }).elems.map Prod.fst).Nodup
        rw [update_all_keys]
        exact hkeys2 id
      · show ((st.ensure id).update_all fun k e =>
            { e with active := k == id }).countP (fun e => e.active) ≤ 1
        rw [countP_update_all]
        show (st.ensure id).elems.countP (fun e => e.1 == id) ≤ 1
        exact countP_key_le_one _ id (hkeys2 id)
      · show ((st.ensure id).update_all fun k e =>
            { e with active := k == id }).countP (fun e => e.focused) ≤ 1
        rw [countP_update_all]
        show (st.ensure id).countP (fun e => e.focused) ≤ 1
        rw [countP_ensure st id _ rfl]
        exact hfoc
  | release_capture =>
      refine ⟨?_, ?_, ?_⟩
      · show ((st.update_all fun _ e =>
            { e with active := false }).elems.map Prod.fst).Nodup
        rw [update_all_keys]
        exact hkeys
      · show (st.update_all fun _ e =>
            { e with active := false }).countP (fun e => e.active) ≤ 1
        rw [countP_update_all]
        simp
      · show (st.update_all fun _ e =>
            { e with active := false }).countP (fun e => e.focused) ≤ 1
        rw [countP_update_all]
        exact hfoc
  | blur =>
      refine ⟨?_, ?_, ?_⟩
      · show ((st.update_all fun _ e =>
            { e with focused := false }).elems.map Prod.fst).Nodup
        rw [update_all_keys]
        exact hkeys
      · show (st.update_all fun _ e =>
            { e with focused := false }).countP (fun e => e.active) ≤ 1
        rw [countP_update_all]
        exact hact
      · show (st.update_all fun _ e =>
            { e with focused := false }).countP (fun e => e.focused) ≤ 1
        rw [countP_update_all]
        simp
  | try_hover id inside =>
      refine ⟨?_, ?_, ?_⟩
      · show (((st.ensure id).update_all fun k e =>
            if k == id then { e with hovered := inside } else e).elems.map
              Prod.fst).Nodup
        rw [update_all_keys]
        exact hkeys2 id
      · show ((st.ensure id).update_all fun k e =>
            if k == id then { e with hovered := inside } else e).countP
            (fun e => e.active) ≤ 1
        rw [countP_update_all]
        have heq : ((st.ensure id).elems.countP fun e =>
            (if e.1 == id then { e.2 with hovered := inside } else e.2).active)
            = (st.ensure id).elems.countP fun e => e.2.active := by
          apply List.countP_congr
          intro e _
          by_cases hk : (e.1 == id) = true
          · rw [if_pos hk]
          · rw [if_neg hk]
        rw [heq]
        show (st.ensure id).countP (fun e => e.active) ≤ 1
        rw [countP_ensure st id _ rfl]
        exact hact
      · show ((st.ensure id).update_all fun k e =>
            if k == id then { e with hovered := inside } else e).countP
            (fun e => e.focused) ≤ 1
        rw [countP_update_all]
        have heq : ((st.ensure id).elems.countP fun e =>
            (if e.1 == id then { e.2 with hovered := inside } else e.2).focused)
            = (st.ensure id).elems.countP fun e => e.2.focused := by
          apply List.countP_congr
          intro e _
          by_cases hk : (e.1 == id) = true
          · rw [if_pos hk]
          · rw [if_neg hk]
        rw [heq]
        show (st.ensure id).countP (fun e => e.focused) ≤ 1
        rw [countP_ensure st id _ rfl]
        exact hfoc
  | set_scroll id x y =>
      refine ⟨?_, ?_, ?_⟩
      · show (((st.ensure id).update_all fun k e =>
            if k == id then { e with scrollX := x, scrollY := y }
            else e).elems.map Prod.fst).Nodup
        rw [update_all_keys]
        exact hkeys2 id
      · show ((st.ensure id).update_all fun k e =>
            if k == id then { e with scrollX := x, scrollY := y }
            else e).countP (fun e => e.active) ≤ 1
        rw [countP_update_all]
        have heq : ((st.ensure id).elems.countP fun e =>
            (if e.1 == id then { e.2 with scrollX := x, scrollY := y }
              else e.2).active)
            = (st.ensure id).elems.countP fun e => e.2.active := by
          apply List.countP_congr
          intro e _
          by_cases hk : (e.1 == id) = true
          · rw [if_pos hk]
          · rw [if_neg hk]
        rw [heq]
        show (st.ensure id).countP (fun e => e.active) ≤ 1
        rw [countP_ensure st id _ rfl]
        exact hact
      · show ((st.ensure id).update_all fun k e =>
            if k == id then { e with scrollX := x, scrollY := y }
            else e).countP (fun e => e.focused) ≤ 1
        rw [countP_update_all]
        have heq : ((st.ensure id).elems.countP fun e =>
            (if e.1 == id then { e.2 with scrollX := x, scrollY := y }
              else e.2).focused)
            = (st.ensure id).elems.countP fun e => e.2.focused := by
          apply List.countP_congr
          intro e _
          by_cases hk : (e.1 == id) = true
          · rw [if_pos hk]
          · rw [if_neg hk]
        rw [heq]
        show (st.ensure id).countP (fun e => e.focused) ≤ 1
        rw [countP_ensure st id _ rfl]
        exact hfoc

/-- C1: after any sequence of interaction-state store operations (as issued
by slider, drag, scrollbar and select_list calls over any number of frames)
at most one ElementId is `active` and at most one is `focused`; and claiming
focus (resp. capture) for one ElementId leaves it set on no other ElementId.
The store implementation is absent from the source tree and is modelled from
the spec. -/
theorem C1_active_focused_exclusive (ops : List UiOp) :
    (UiStore.run ops).exclusive ∧
    (∀ st : UiStore, ∀ id : Nat, ∀ e ∈ (st.focus id).elems,
      e.2.focused = true → e.1 = id) ∧
    (∀ st : UiStore, ∀ id : Nat, ∀ e ∈ (st.capture id).elems,
      e.2.active = true → e.1 = id) := by
  refine ⟨?_, ?_, ?_⟩
  · have main : ∀ (l : List UiOp) (st : UiStore),
        ((st.elems.map Prod.fst).Nodup ∧ st.exclusive) →
        (((l.foldl UiStore.apply st).elems.map Prod.fst).Nodup ∧
          (l.foldl UiStore.apply st).exclusive) := by
      intro l
      induction l with
      | nil => exact fun st hst => hst
      | cons op t ih =>
          intro st hst
          exact ih _ (apply_preserves_exclusive st op hst)
    exact (main ops UiStore.init ⟨List.nodup_nil, Nat.le_succ 0, Nat.le_succ 0⟩).2
  · intro st id e he hf
    rw [UiStore.focus, UiStore.update_all, List.mem_map] at he
    obtain ⟨a, _, rfl⟩ := he
    simpa using hf
  · intro st id e he ha
    rw [UiStore.capture, UiStore.update_all, List.mem_map] at he
    obtain ⟨a, _, rfl⟩ := he
    simpa using ha

/-- C1, witness: focusing element 1 then capturing element 2 keeps the store
exclusive, and in the store obtained by focusing element 2 from scratch the
focused entry is element 2 itself. -/
theorem C1_witness :
    (UiStore.run [UiOp.try_focus 1, UiOp.try_capture 2]).exclusive ∧
    ((2 : Nat), (⟨false, false, true, 0, 0⟩ : ElementState)).1 = 2 :=
  ⟨(C1_active_focused_exclusive [UiOp.try_focus 1, UiOp.try_capture 2]).1,
   (C1_active_focused_exclusive []).2.1 UiStore.init 2
     ((2 : Nat), ⟨false, false, true, 0, 0⟩) (by decide) (by decide)⟩

/-- C4, witness for the amended claim: a focused vertical scrollbar with
`max = 10`, value `5`, a Down key entered and no wheel input stays within
`[0, max]`. -/
theorem C4_witness :
    0 ≤ (scrollbar ⟨⟨0, 0, 12, 100⟩, 10, 5, .vertical, false, true, false,
      false, some Key.down, 0, 0, 0, 0⟩).value ∧
    (scrollbar ⟨⟨0, 0, 12, 100⟩, 10, 5, .vertical, false, true, false,
      false, some Key.down, 0, 0, 0, 0⟩).value ≤ u32_as_i32 10 :=
  C4_scrollbar_clamped
    ⟨⟨0, 0, 12, 100⟩, 10, 5, .vertical, false, true, false, false,
      some Key.down, 0, 0, 0, 0⟩
    (Or.inl rfl) (by decide) (by decide) (by decide)

/-- C7, witness for the amended claim at a concrete constructed color. -/
theorem C7_witness :
    (Color.with_mode_alpha ColorMode.rgb 10 20 30 40).levels_in_range :=
  (C7_levels_clamping ColorMode.rgb 10 20 30 40 2 (Color.rgba 0 0 0 0)
    (Color.rgba 0 0 0 0)).1

/-- C8, witness: the held left mouse button survives `post_update` on a
concrete frame state. -/
theorem C8_witness :
    (FrameState.post_update
      ⟨⟨(1, 2), [Mouse.left], [Mouse.left], [(Mouse.left, 5)]⟩,
        ⟨(0, 0), [], [], []⟩, ⟨[Key.up]⟩⟩).mouse.pressed = [Mouse.left] :=
  ((C8_post_update_clears_only_clicked
    ⟨⟨(1, 2), [Mouse.left], [Mouse.left], [(Mouse.left, 5)]⟩,
      ⟨(0, 0), [], [], []⟩, ⟨[Key.up]⟩⟩).2.1).trans rfl

/-- C9, witness: the Down key on an empty list with selection `Some 2`
panics. -/
theorem C9_witness :
    select_list_input 0 (some 2) 0 20 100 Key.down =
      .error .usizeUnderflow :=
  (C9_empty_list_down_key 2 0 20 100).1

/-- C10, witness: a single-vertex model draws two segments. -/
theorem C10_witness :
    ∃ segs, draw_wireframe [((0 : ℚ), (0 : ℚ))] 0 0 1 0 1 = .ok segs ∧
      segs.length = 2 :=
  (C10_draw_wireframe [((0 : ℚ), (0 : ℚ))] 0 0 1 0 1).2 (by simp)

end PixEngine
